import Mathlib

/-!
Verification development for the Apollo.io client tool
(`src/griptape/apollo/tools/apollo/tool.py`).

The Python module defines a single class `ApolloClient` with three
operations: `search_people`, `search_organizations` and `enrich_people`.
Each builds a JSON payload from structured parameters, performs one HTTP
POST, and reformats the JSON response into text records, returning either
a `ListArtifact` of `TextArtifact`s or an `ErrorArtifact`.

We shallow-embed the module: the decoded JSON response is an inductive
`JVal`; Python dictionary access, truthiness, `str()` rendering,
`', '.join(...)` and iteration are modelled by explicit functions that
return `Option` where the Python operation can raise a `TypeError` or
`AttributeError` (modelled as a crash); the HTTP layer is abstracted into
an `HttpOutcome` describing what `requests.post` / `raise_for_status` /
`response.json()` did, and each operation becomes a pure function of the
client configuration, the call parameters, and that outcome.
-/

/-- Untyped JSON value, the result of `response.json()`.  Numbers are
modelled as integers (the fields this module reads are counts, years and
rankings). -/
inductive JVal where
  | null
  | boolv (b : Bool)
  | num (n : Int)
  | str (s : String)
  | arr (xs : List JVal)
  | obj (fields : List (String × JVal))

/-- First value bound to `k` in an association list (Python dicts have
unique keys; the embedding uses first-match lookup). -/
def lookupJ : List (String × JVal) → String → Option JVal
  | [], _ => none
  | (k, v) :: rest, key => if k = key then some v else lookupJ rest key

/-- Python `d.get(k, default)`: succeeds only when the receiver is a
dict; `none` models the `AttributeError` raised otherwise. -/
def pyGet (j : JVal) (k : String) (d : JVal) : Option JVal :=
  match j with
  | .obj fields => some ((lookupJ fields k).getD d)
  | _ => none

/-- Total variant of `pyGet` for stating well-typedness predicates: on a
non-dict receiver it returns the default (the predicate separately
requires the receiver to be a dict). -/
def dget (j : JVal) (k : String) (d : JVal) : JVal :=
  match j with
  | .obj fields => (lookupJ fields k).getD d
  | _ => d

/-- Python truthiness of a JSON value (`if phone_info`, `if job.get("current")`). -/
def pyTruthy : JVal → Bool
  | .null => false
  | .boolv b => b
  | .num n => n != 0
  | .str s => s != ""
  | .arr xs => !xs.isEmpty
  | .obj fs => !fs.isEmpty

def qt : String := String.singleton (Char.ofNat 39)

mutual

/-- Python `repr()` of a JSON value (used by `str()` on containers). -/
def pyRepr : JVal → String
  | .null => "None"
  | .boolv true => "True"
  | .boolv false => "False"
  | .num n => toString n
  | .str s => qt ++ s ++ qt
  | .arr xs => "[" ++ String.intercalate ", " (pyReprList xs) ++ "]"
  | .obj fs => "\x7b" ++ String.intercalate ", " (pyReprFields fs) ++ "\x7d"

def pyReprList : List JVal → List String
  | [] => []
  | x :: xs => pyRepr x :: pyReprList xs

def pyReprFields : List (String × JVal) → List String
  | [] => []
  | (k, v) :: fs => (qt ++ k ++ qt ++ ": " ++ pyRepr v) :: pyReprFields fs

end

/-- Python `str()` as used in the f-strings of the module. -/
def pyStr : JVal → String
  | .str s => s
  | v => pyRepr v

/-- Python `sep.join(x)`: defined on a string (joins its characters), a
list of strings (a non-string element raises `TypeError`, modelled as
`none`), or a dict (joins its keys); not defined otherwise. -/
def pyJoin (sep : String) : JVal → Option String
  | .str s => some (String.intercalate sep (s.toList.map String.singleton))
  | .arr xs => (xs.mapM (fun v => match v with | JVal.str s => some s | _ => none)).map
      (String.intercalate sep)
  | .obj fs => some (String.intercalate sep (fs.map Prod.fst))
  | _ => none

/-- Python `len(x)`: defined on strings, lists and dicts. -/
def pyLen : JVal → Option Nat
  | .str s => some s.length
  | .arr xs => some xs.length
  | .obj fs => some fs.length
  | _ => none

/-- Python iteration `for x in v`: a list yields its elements, a string
its characters (as one-character strings), a dict its keys; other values
raise `TypeError`. -/
def pyIter : JVal → Option (List JVal)
  | .arr xs => some xs
  | .str s => some (s.toList.map (fun c => JVal.str (String.singleton c)))
  | .obj fs => some (fs.map (fun kv => JVal.str kv.1))
  | _ => none

/-- The `ApolloClient` configuration: `api_key` and `timeout` attrs
fields (tool.py lines 17-18). -/
structure Client where
  api_key : String
  timeout : Int
deriving DecidableEq, Repr

def SEARCH_ENDPOINT : String := "https://api.apollo.io/v1/mixed_people/search"
def ORGANIZATION_SEARCH_ENDPOINT : String := "https://api.apollo.io/api/v1/mixed_companies/search"
def BULK_MATCH_ENDPOINT : String := "https://api.apollo.io/api/v1/people/bulk_match"

/-- A value stored in an outgoing search payload: a list of strings, a
joined string, or a fixed integer. -/
inductive PVal where
  | listS (xs : List String)
  | strS (s : String)
  | numS (n : Int)
deriving DecidableEq, Repr

/-- First value bound to a key in a payload. -/
def lookupKey : List (String × PVal) → String → Option PVal
  | [], _ => none
  | (k, v) :: rest, key => if k = key then some v else lookupKey rest key

/-- Parameters of `search_people`: the six optional list-of-string filter
fields of the activity schema.  `none` models an absent key
(`params["values"].get(...)` returns `None`). -/
structure PeopleParams where
  person_titles : Option (List String) := none
  person_locations : Option (List String) := none
  organization_locations : Option (List String) := none
  organization_num_employees_ranges : Option (List String) := none
  q_organization_keyword_tags : Option (List String) := none
  q_organization_domains : Option (List String) := none
deriving DecidableEq, Repr

/-- Parameters of `search_organizations`: its four optional filter fields. -/
structure OrgParams where
  organization_num_employees_ranges : Option (List String) := none
  organization_locations : Option (List String) := none
  organization_not_locations : Option (List String) := none
  q_organization_keyword_tags : Option (List String) := none
deriving DecidableEq, Repr

/-- One `if field := params["values"].get(k)` guard: the key is added to
the payload exactly when the value is truthy (present and non-empty). -/
def optField (k : String) (o : Option (List String)) (f : List String → PVal) :
    List (String × PVal) :=
  match o with
  | some xs => if xs.isEmpty then [] else [(k, f xs)]
  | none => []

/-- Payload built by `search_people` (tool.py lines 54-83): present,
non-empty filter fields in source order, domains joined with newlines,
then the fixed `page`, `per_page` and `contact_email_status` entries. -/
def buildPeoplePayload (p : PeopleParams) : List (String × PVal) :=
  optField "person_titles" p.person_titles .listS ++
  optField "person_locations" p.person_locations .listS ++
  optField "organization_locations" p.organization_locations .listS ++
  optField "organization_num_employees_ranges" p.organization_num_employees_ranges .listS ++
  optField "q_organization_keyword_tags" p.q_organization_keyword_tags .listS ++
  optField "q_organization_domains" p.q_organization_domains
    (fun ds => .strS (String.intercalate "\n" ds)) ++
  [("page", .numS 1), ("per_page", .numS 10), ("contact_email_status", .listS ["verified"])]

/-- Payload built by `search_organizations` (tool.py lines 196-216). -/
def buildOrgPayload (p : OrgParams) : List (String × PVal) :=
  optField "organization_num_employees_ranges" p.organization_num_employees_ranges .listS ++
  optField "organization_locations" p.organization_locations .listS ++
  optField "organization_not_locations" p.organization_not_locations .listS ++
  optField "q_organization_keyword_tags" p.q_organization_keyword_tags .listS ++
  [("page", .numS 1), ("per_page", .numS 10)]

/-- The request headers (identical in all three operations). -/
def mkHeaders (api_key : String) : List (String × String) :=
  [("accept", "application/json"), ("Cache-Control", "no-cache"),
   ("Content-Type", "application/json"), ("x-api-key", api_key)]

/-- 16 spaces: the indentation inside the triple-quoted summary f-strings. -/
def sp16 : String := "                "

/-- 20 spaces: the indentation inside the per-record f-strings. -/
def sp20 : String := "                    "

def fLine (ind s : String) : String := ind ++ s ++ "\n"

/-- The `pagination_info` text of `search_people` (tool.py lines 113-121). -/
def peoplePaginationInfo (te tp pg pp : JVal) : String :=
  "\n" ++ fLine sp16 "Pagination Information:" ++
  fLine sp16 ("- Total Profiles Found: " ++ pyStr te) ++
  fLine sp16 ("- Total Pages: " ++ pyStr tp) ++
  fLine sp16 ("- Current Page: " ++ pyStr pg) ++
  fLine sp16 ("- Results Per Page: " ++ pyStr pp) ++ sp16

/-- The `pagination_info` text of `search_organizations` (tool.py lines
246-251): only the total-entries count is rendered. -/
def orgPaginationInfo (te : JVal) : String :=
  "\n" ++ fLine sp16 "Pagination Information:" ++
  fLine sp16 ("- Total Organizations Found: " ++ pyStr te) ++ sp16

/-- The `summary` text of `enrich_people` (tool.py lines 376-384). -/
def enrichSummaryInfo (tr ue mr cc : JVal) : String :=
  "\n" ++ fLine sp16 "Enrichment Summary:" ++
  fLine sp16 ("- Total Requested: " ++ pyStr tr) ++
  fLine sp16 ("- Successfully Enriched: " ++ pyStr ue) ++
  fLine sp16 ("- Missing Records: " ++ pyStr mr) ++
  fLine sp16 ("- Credits Consumed: " ++ pyStr cc) ++ sp16

/-- The `f"\x7bperson.get('city', '')\x7d, \x7bperson.get('state', '')\x7d,
\x7bperson.get('country', '')\x7d"` location string, shared by
`search_people` (tool.py line 132) and `enrich_people` (line 405). -/
def personLocation (person : JVal) : Option String := do
  let city ← pyGet person "city" (.str "")
  let state ← pyGet person "state" (.str "")
  let country ← pyGet person "country" (.str "")
  return pyStr city ++ ", " ++ pyStr state ++ ", " ++ pyStr country

/-- The `', '.join(person.get('departments', []))` and
`', '.join(person.get('functions', []))` pair, shared by `search_people`
(tool.py lines 139-140) and `enrich_people` (lines 406, 408). -/
def personLists (person : JVal) : Option (String × String) := do
  let departments ← pyGet person "departments" (.arr [])
  let functions ← pyGet person "functions" (.arr [])
  let depStr ← pyJoin ", " departments
  let funStr ← pyJoin ", " functions
  return (depStr, funStr)

/-- The six scalar person fields of `search_people` (tool.py lines
127-131, 138). -/
def personBasics (person : JVal) : Option (JVal × JVal × JVal × JVal × JVal × JVal) := do
  let name ← pyGet person "name" .null
  let title ← pyGet person "title" .null
  let headline ← pyGet person "headline" .null
  let email_status ← pyGet person "email_status" .null
  let linkedin ← pyGet person "linkedin_url" .null
  let seniority ← pyGet person "seniority" .null
  return (name, title, headline, email_status, linkedin, seniority)

/-- The nested company fields of `search_people` (tool.py lines 133-137). -/
def companyInfo (org : JVal) : Option (JVal × JVal × JVal) := do
  let compName ← pyGet org "name" .null
  let compWebsite ← pyGet org "website_url" .null
  let compLinkedin ← pyGet org "linkedin_url" .null
  return (compName, compWebsite, compLinkedin)

/-- One person record of `search_people` (tool.py lines 124-159).
`none` models a `TypeError`/`AttributeError` raised while formatting. -/
def formatPerson (person : JVal) : Option String := do
  let org ← pyGet person "organization" (.obj [])
  let (name, title, headline, email_status, linkedin, seniority) ← personBasics person
  let loc ← personLocation person
  let (compName, compWebsite, compLinkedin) ← companyInfo org
  let (depStr, funStr) ← personLists person
  return "\n" ++ fLine sp20 ("Name: " ++ pyStr name) ++
    fLine sp20 ("Title: " ++ pyStr title) ++
    fLine sp20 ("Headline: " ++ pyStr headline) ++
    fLine sp20 ("Email Status: " ++ pyStr email_status) ++
    fLine sp20 ("LinkedIn: " ++ pyStr linkedin) ++
    fLine sp20 ("Location: " ++ loc) ++
    fLine sp20 ("Company: " ++ pyStr compName) ++
    fLine sp20 ("Company Website: " ++ pyStr compWebsite) ++
    fLine sp20 ("Company LinkedIn: " ++ pyStr compLinkedin) ++
    fLine sp20 ("Seniority: " ++ pyStr seniority) ++
    fLine sp20 ("Departments: " ++ depStr) ++
    fLine sp20 ("Functions: " ++ funStr) ++ sp20

/-- Success-path response processing of `search_people` (tool.py lines
103-161), from the decoded JSON to the list of record texts.  The
`pyLen` step models the `len(people_data)` call in the logging line. -/
def formatPeopleData (data : JVal) : Option (List String) := do
  let pagination ← pyGet data "pagination" (.obj [])
  let total_entries ← pyGet pagination "total_entries" (.num 0)
  let total_pages ← pyGet pagination "total_pages" (.num 0)
  let people_data ← pyGet data "people" (.arr [])
  let _ ← pyLen people_data
  let page ← pyGet pagination "page" (.num 1)
  let per_page ← pyGet pagination "per_page" (.num 10)
  let persons ← pyIter people_data
  let recs ← persons.mapM formatPerson
  return peoplePaginationInfo total_entries total_pages page per_page :: recs

/-- The primary-phone fallback of `search_organizations` (tool.py lines
256-259): `phone_info.get("number") if phone_info else org.get("phone")`. -/
def orgPhone (org : JVal) : Option JVal := do
  let phone_info ← pyGet org "primary_phone" (.obj [])
  if pyTruthy phone_info then pyGet phone_info "number" .null
  else pyGet org "phone" .null

/-- The name/website/social-link fields of an organization record
(tool.py lines 262-267). -/
def orgLinks (org : JVal) : Option (JVal × JVal × JVal × JVal × JVal × JVal) := do
  let name ← pyGet org "name" .null
  let website ← pyGet org "website_url" .null
  let linkedin ← pyGet org "linkedin_url" .null
  let twitter ← pyGet org "twitter_url" .null
  let facebook ← pyGet org "facebook_url" .null
  let blog ← pyGet org "blog_url" .null
  return (name, website, linkedin, twitter, facebook, blog)

/-- The remaining scalar fields of an organization record (tool.py lines
270-275). -/
def orgFacts (org : JVal) : Option (JVal × JVal × JVal × JVal × JVal × JVal) := do
  let alexa ← pyGet org "alexa_ranking" .null
  let founded ← pyGet org "founded_year" .null
  let symbol ← pyGet org "publicly_traded_symbol" .null
  let exchange ← pyGet org "publicly_traded_exchange" .null
  let logo ← pyGet org "logo_url" .null
  let primary_domain ← pyGet org "primary_domain" .null
  return (alexa, founded, symbol, exchange, logo, primary_domain)

/-- `', '.join(org.get("languages", []))` (tool.py lines 269, 287). -/
def orgLangs (org : JVal) : Option String := do
  let languages ← pyGet org "languages" (.arr [])
  pyJoin ", " languages

/-- One organization record of `search_organizations` (tool.py lines
254-296), including the primary-phone fallback. -/
def formatOrg (org : JVal) : Option String := do
  let phone_number ← orgPhone org
  let (name, website, linkedin, twitter, facebook, blog) ← orgLinks org
  let (alexa, founded, symbol, exchange, logo, primary_domain) ← orgFacts org
  let langStr ← orgLangs org
  return "\n" ++ fLine sp20 ("Name: " ++ pyStr name) ++
    fLine sp20 ("Website: " ++ pyStr website) ++
    fLine sp20 ("LinkedIn: " ++ pyStr linkedin) ++
    fLine sp20 ("Twitter: " ++ pyStr twitter) ++
    fLine sp20 ("Facebook: " ++ pyStr facebook) ++
    fLine sp20 ("Blog: " ++ pyStr blog) ++
    fLine sp20 ("Phone: " ++ pyStr phone_number) ++
    fLine sp20 ("Languages: " ++ langStr) ++
    fLine sp20 ("Alexa Ranking: " ++ pyStr alexa) ++
    fLine sp20 ("Founded Year: " ++ pyStr founded) ++
    fLine sp20 ("Stock Symbol: " ++ pyStr symbol) ++
    fLine sp20 ("Stock Exchange: " ++ pyStr exchange) ++
    fLine sp20 ("Logo URL: " ++ pyStr logo) ++
    fLine sp20 ("Primary Domain: " ++ pyStr primary_domain) ++ sp20

/-- Success-path response processing of `search_organizations` (tool.py
lines 236-298). -/
def formatOrgData (data : JVal) : Option (List String) := do
  let pagination ← pyGet data "pagination" (.obj [])
  let total_entries ← pyGet pagination "total_entries" (.num 0)
  let _tp ← pyGet pagination "total_pages" (.num 0)
  let organizations_data ← pyGet data "organizations" (.arr [])
  let _ ← pyLen organizations_data
  let orgs ← pyIter organizations_data
  let recs ← orgs.mapM formatOrg
  return orgPaginationInfo total_entries :: recs

/-- The `next((job for job in ... if job.get("current")), {})` expression
(tool.py lines 389-396): the first employment-history entry whose
`current` field is truthy, or an empty dict. -/
def findCurrentJob : List JVal → Option JVal
  | [] => some (.obj [])
  | j :: rest => do
      let cur ← pyGet j "current" .null
      if pyTruthy cur then some j else findCurrentJob rest

/-- The employment-history walk of `enrich_people` (tool.py lines
389-396): iterate `person.get("employment_history", [])` and take the
first current entry (or an empty dict). -/
def matchCurrentJob (person : JVal) : Option JVal := do
  let eh ← pyGet person "employment_history" (.arr [])
  let jobs ← pyIter eh
  findCurrentJob jobs

/-- The scalar person fields of an enrichment record (tool.py lines
400-403, 407, 409). -/
def matchBasics (person : JVal) : Option (JVal × JVal × JVal × JVal × JVal × JVal) := do
  let name ← pyGet person "name" .null
  let email ← pyGet person "email" .null
  let linkedin ← pyGet person "linkedin_url" .null
  let title ← pyGet person "title" .null
  let seniority ← pyGet person "seniority" .null
  let engage ← pyGet person "is_likely_to_engage" (.boolv false)
  return (name, email, linkedin, title, seniority, engage)

/-- One matched-person record of `enrich_people` (tool.py lines 388-412). -/
def formatMatch (person : JVal) : Option String := do
  let current_job ← matchCurrentJob person
  let (name, email, linkedin, title, seniority, engage) ← matchBasics person
  let orgName ← pyGet current_job "organization_name" .null
  let loc ← personLocation person
  let (depStr, funStr) ← personLists person
  return "\n" ++ fLine sp20 ("Name: " ++ pyStr name) ++
    fLine sp20 ("Email: " ++ pyStr email) ++
    fLine sp20 ("LinkedIn: " ++ pyStr linkedin) ++
    fLine sp20 ("Current Title: " ++ pyStr title) ++
    fLine sp20 ("Current Company: " ++ pyStr orgName) ++
    fLine sp20 ("Location: " ++ loc) ++
    fLine sp20 ("Departments: " ++ depStr) ++
    fLine sp20 ("Seniority: " ++ pyStr seniority) ++
    fLine sp20 ("Functions: " ++ funStr) ++
    fLine sp20 ("Is Likely to Engage: " ++ pyStr engage) ++ sp20

/-- Success-path response processing of `enrich_people` (tool.py lines
370-414). -/
def formatEnrichData (data : JVal) : Option (List String) := do
  let tr ← pyGet data "total_requested_enrichments" (.num 0)
  let ue ← pyGet data "unique_enriched_records" (.num 0)
  let mr ← pyGet data "missing_records" (.num 0)
  let cc ← pyGet data "credits_consumed" (.num 0)
  let matchesData ← pyGet data "matches" (.arr [])
  let ms ← pyIter matchesData
  let recs ← ms.mapM formatMatch
  return enrichSummaryInfo tr ue mr cc :: recs

/-- What the HTTP layer did, abstracting `requests`: either
`requests.post` itself raised a `RequestException` (connection error,
timeout — no `response` variable is ever bound), or a response arrived
with a status code, a body text, and `some` decoded JSON value when the
body parses (`none` when `response.json()` raises `ValueError`). -/
inductive HttpOutcome where
  | postError (msg : String)
  | response (status : Nat) (text : String) (body : Option JVal)

/-- Result of one operation: a `ListArtifact` of record texts, an
`ErrorArtifact`, or an uncaught Python exception escaping the method. -/
inductive OpResult where
  | records (rs : List String)
  | errorArtifact (msg : String)
  | crash (msg : String)
deriving DecidableEq, Repr

/-- The shared `try/except` logic around the POST call (tool.py lines
92-168, 225-305, 361-422).  `response.raise_for_status()` raises
`HTTPError` (a `RequestException`) exactly for 4xx/5xx status codes; the
message of the library exception is abstracted as status plus body text.
When `requests.post` itself raises, the `except RequestException` block
evaluates `f"Response content: \x7bresponse.text\x7d"` with `response`
unbound, so an `UnboundLocalError` escapes instead of an `ErrorArtifact`
being returned.  A `TypeError`/`AttributeError` raised while formatting a
decoded body is caught by neither handler and also escapes. -/
def handleResponse (fmt : JVal → Option (List String)) : HttpOutcome → OpResult
  | .postError _ =>
      .crash "UnboundLocalError: cannot access local variable response"
  | .response status text body =>
      if 400 ≤ status then
        .errorArtifact ("Request failed: " ++ toString status ++ " Error: " ++ text)
      else
        match body with
        | none => .errorArtifact "Failed to decode JSON from response"
        | some j =>
          match fmt j with
          | none => .crash "TypeError while formatting response"
          | some rs => .records rs

structure SearchRequest where
  url : String
  payload : List (String × PVal)
  headers : List (String × String)
  timeout : Int
deriving DecidableEq, Repr

/-- The fixed payload wrapper of `enrich_people` (tool.py lines 348-352). -/
structure EnrichPayload where
  details : List (List (String × String))
  reveal_personal_emails : Bool
  reveal_phone_number : Bool
deriving DecidableEq, Repr

structure EnrichRequest where
  url : String
  payload : EnrichPayload
  headers : List (String × String)
  timeout : Int
deriving DecidableEq, Repr

/-- One full run of an operation: the client afterwards (the methods
never assign to `self`, so it is returned unchanged), the request that
was POSTed (`none` when validation rejected the call before any network
activity), and the operation's result. -/
structure OpRun (Req : Type) where
  finalClient : Client
  request : Option Req
  result : OpResult
deriving DecidableEq, Repr

/-- `search_people` (tool.py lines 53-168) as a function of the client,
the activity parameters and the HTTP outcome. -/
def runSearchPeople (c : Client) (p : PeopleParams) (o : HttpOutcome) :
    OpRun SearchRequest :=
  { finalClient := c
    request := some ⟨SEARCH_ENDPOINT, buildPeoplePayload p, mkHeaders c.api_key, c.timeout⟩
    result := handleResponse formatPeopleData o }

/-- `search_organizations` (tool.py lines 195-305). -/
def runSearchOrganizations (c : Client) (p : OrgParams) (o : HttpOutcome) :
    OpRun SearchRequest :=
  { finalClient := c
    request := some ⟨ORGANIZATION_SEARCH_ENDPOINT, buildOrgPayload p, mkHeaders c.api_key, c.timeout⟩
    result := handleResponse formatOrgData o }

/-- `if v and v.strip()` on a string value: keep only non-blank strings. -/
def isNonBlank (v : String) : Bool := v != "" && v.trim != ""

/-- The dict comprehension cleaning one enrichment target (tool.py
lines 334-338). -/
def cleanPerson (person : List (String × String)) : List (String × String) :=
  person.filter (fun kv => isNonBlank kv.2)

def lookupS : List (String × String) → String → Option String
  | [], _ => none
  | (k, v) :: rest, key => if k = key then some v else lookupS rest key

/-- `cleaned_person.get("linkedin_url") or cleaned_person.get("email")`
(tool.py line 341): truthiness of the two lookups. -/
def hasIdentifier (cleaned : List (String × String)) : Bool :=
  (match lookupS cleaned "linkedin_url" with | some s => s != "" | none => false) ||
  (match lookupS cleaned "email" with | some s => s != "" | none => false)

def VALIDATION_MSG : String := "Each person must have either a LinkedIn URL or email address"

/-- The validation/cleaning loop of `enrich_people` (tool.py lines
332-346): clean each target in order; return the `ErrorArtifact` message
at the first target left with neither identifier, otherwise the list of
cleaned targets.  An empty input list yields an empty cleaned list. -/
def enrichPrepare : List (List (String × String)) → Except String (List (List (String × String)))
  | [] => .ok []
  | person :: rest =>
      let cleaned := cleanPerson person
      if hasIdentifier cleaned then
        match enrichPrepare rest with
        | .ok cs => .ok (cleaned :: cs)
        | .error e => .error e
      else .error VALIDATION_MSG

/-- `enrich_people` (tool.py lines 328-422): validation first; on
success the cleaned details are POSTed with the two fixed flags. -/
def runEnrichPeople (c : Client) (details : List (List (String × String)))
    (o : HttpOutcome) : OpRun EnrichRequest :=
  match enrichPrepare details with
  | .error msg => { finalClient := c, request := none, result := .errorArtifact msg }
  | .ok cleaned =>
      { finalClient := c
        request := some ⟨BULK_MATCH_ENDPOINT, ⟨cleaned, false, false⟩, mkHeaders c.api_key, c.timeout⟩
        result := handleResponse formatEnrichData o }

/-- `charsHavePre pat s`: `pat` is an initial segment of `s`. -/
def charsHavePre : List Char → List Char → Bool
  | [], _ => true
  | _ :: _, [] => false
  | p :: ps, c :: cs => p == c && charsHavePre ps cs

/-- `charsContain pat s`: `pat` occurs contiguously in `s`. -/
def charsContain (pat : List Char) : List Char → Bool
  | [] => charsHavePre pat []
  | c :: cs => charsHavePre pat (c :: cs) || charsContain pat cs

/-- Boolean substring test on strings. -/
def strContains (s pat : String) : Bool := charsContain pat.toList s.toList

/-- Propositional substring containment. -/
def ContainsSub (s pat : String) : Prop := ∃ a b, s = a ++ pat ++ b

/-! Well-typedness predicates for decoded responses: a field, when
present, has the shape the Python code expects of it (a dict where `.get`
is called on it, a joinable value where `', '.join` is applied, an array
of dicts where the code iterates and calls `.get` on the elements).
Missing fields are always fine — the defaults used by the code satisfy
every predicate. -/

def isObj : JVal → Bool
  | .obj _ => true
  | _ => false

def isStr : JVal → Bool
  | .str _ => true
  | _ => false

/-- Values on which `', '.join(...)` succeeds. -/
def joinOK : JVal → Bool
  | .str _ => true
  | .arr xs => xs.all isStr
  | .obj _ => true
  | _ => false

/-- A person entry of a people-search response, as `search_people` reads it. -/
def WTPerson (p : JVal) : Bool :=
  isObj p && isObj (dget p "organization" (.obj [])) &&
  joinOK (dget p "departments" (.arr [])) && joinOK (dget p "functions" (.arr []))

/-- A people-search response, as `search_people` reads it. -/
def WTPeopleResp (d : JVal) : Bool :=
  isObj d && isObj (dget d "pagination" (.obj [])) &&
  (match dget d "people" (.arr []) with
   | .arr ps => ps.all WTPerson
   | _ => false)

/-- An organization entry, as `search_organizations` reads it. -/
def WTOrg (o : JVal) : Bool :=
  isObj o &&
  (!pyTruthy (dget o "primary_phone" (.obj [])) || isObj (dget o "primary_phone" (.obj []))) &&
  joinOK (dget o "languages" (.arr []))

/-- An organization-search response, as `search_organizations` reads it. -/
def WTOrgResp (d : JVal) : Bool :=
  isObj d && isObj (dget d "pagination" (.obj [])) &&
  (match dget d "organizations" (.arr []) with
   | .arr os => os.all WTOrg
   | _ => false)

/-- A matched-person entry of a bulk-match response, as `enrich_people`
reads it. -/
def WTMatch (p : JVal) : Bool :=
  isObj p &&
  (match dget p "employment_history" (.arr []) with
   | .arr jobs => jobs.all isObj
   | _ => false) &&
  joinOK (dget p "departments" (.arr [])) && joinOK (dget p "functions" (.arr []))

/-- A bulk-match response, as `enrich_people` reads it. -/
def WTEnrichResp (d : JVal) : Bool :=
  isObj d &&
  (match dget d "matches" (.arr []) with
   | .arr ms => ms.all WTMatch
   | _ => false)

/-! ### Helper lemmas -/

lemma lookupKey_optField_append {k key : String} (o : Option (List String))
    (f : List String → PVal) (rest : List (String × PVal)) (hne : k ≠ key) :
    lookupKey (optField k o f ++ rest) key = lookupKey rest key := by
  cases o with
  | none => simp [optField]
  | some xs => by_cases h : xs.isEmpty <;> simp [optField, h, lookupKey, hne]

lemma mem_keys_optField {s k : String} {o : Option (List String)} {f : List String → PVal}
    (h : s ∈ (optField k o f).map Prod.fst) : s = k ∧ o ≠ none ∧ o ≠ some [] := by
  cases o with
  | none => simp [optField] at h
  | some xs =>
      by_cases he : xs.isEmpty
      · simp [optField, he] at h
      · simp [optField, he] at h
        refine ⟨h, by simp, fun hc => ?_⟩
        rw [Option.some.injEq] at hc
        subst hc
        simp at he

lemma handleResponse_records {fmt : JVal → Option (List String)} {o : HttpOutcome}
    {rs : List String} (h : handleResponse fmt o = .records rs) :
    ∃ status text j, o = .response status text (some j) ∧ fmt j = some rs := by
  cases o with
  | postError m => simp [handleResponse] at h
  | response status text body =>
      by_cases hs : 400 ≤ status
      · simp [handleResponse, hs] at h
      · cases body with
        | none => simp [handleResponse, hs] at h
        | some j =>
            cases hf : fmt j with
            | none => simp [handleResponse, hs, hf] at h
            | some rs2 =>
                simp only [handleResponse, if_neg hs, hf, OpResult.records.injEq] at h
                exact ⟨status, text, j, rfl, by rw [hf, h]⟩

lemma formatPeopleData_head {d : JVal} {rs : List String} (h : formatPeopleData d = some rs) :
    ∃ te tp pg ppv rest, rs = peoplePaginationInfo te tp pg ppv :: rest := by
  simp only [formatPeopleData, Option.pure_def, Option.bind_eq_bind, Option.bind_eq_some,
    Option.some.injEq] at h
  obtain ⟨pag, -, te, -, tp, -, pd, -, n, -, pg, -, ppv, -, ps, -, recs, -, hrs⟩ := h
  exact ⟨te, tp, pg, ppv, recs, hrs.symm⟩

lemma formatOrgData_head {d : JVal} {rs : List String} (h : formatOrgData d = some rs) :
    ∃ te rest, rs = orgPaginationInfo te :: rest := by
  simp only [formatOrgData, Option.pure_def, Option.bind_eq_bind, Option.bind_eq_some,
    Option.some.injEq] at h
  obtain ⟨pag, -, te, -, tp, -, od, -, n, -, os, -, recs, -, hrs⟩ := h
  exact ⟨te, recs, hrs.symm⟩

lemma formatEnrichData_head {d : JVal} {rs : List String} (h : formatEnrichData d = some rs) :
    ∃ tr ue mr cc rest, rs = enrichSummaryInfo tr ue mr cc :: rest := by
  simp only [formatEnrichData, Option.pure_def, Option.bind_eq_bind, Option.bind_eq_some,
    Option.some.injEq] at h
  obtain ⟨tr, -, ue, -, mr, -, cc, -, ms, -, l, -, recs, -, hrs⟩ := h
  exact ⟨tr, ue, mr, cc, recs, hrs.symm⟩

/-! ### Claim theorems -/

/-- Claim C1, counterexample: for the empty targets list, `enrich_people`
does send a request payload to the bulk-match endpoint (with an empty
`details` list), so the call is not rejected by validation. -/
theorem enrich_empty_targets_sends_request_cex :
    (runEnrichPeople ⟨"key", 10⟩ [] (HttpOutcome.postError "connection refused")).request
      = some ⟨BULK_MATCH_ENDPOINT, ⟨[], false, false⟩, mkHeaders "key", 10⟩ := rfl

/-- Claim C1, amended: `enrich_people` performs no non-emptiness
validation: for the empty targets list no validation error is raised;
a request with an empty cleaned `details` list and the two fixed flags is
sent to the bulk-match endpoint, and the result is the ordinary
HTTP-outcome handling of the response. -/
theorem enrich_empty_targets_no_validation :
    ∀ (c : Client) (o : HttpOutcome),
      (runEnrichPeople c [] o).request
          = some ⟨BULK_MATCH_ENDPOINT, ⟨[], false, false⟩, mkHeaders c.api_key, c.timeout⟩ ∧
      (runEnrichPeople c [] o).result = handleResponse formatEnrichData o :=
  fun _ _ => ⟨rfl, rfl⟩

/-- Claim C2: when the HTTP POST itself raises (connection error,
timeout), all three operations crash with an `UnboundLocalError` from the
`except` handler's reference to the unbound `response` variable, instead
of returning the `RequestError` artifact; a non-2xx response and a
non-JSON body do produce the single descriptive error artifacts. -/
theorem post_exception_handler_crashes :
    (runSearchPeople ⟨"key", 10⟩ {} (HttpOutcome.postError "connection refused")).result
        = OpResult.crash "UnboundLocalError: cannot access local variable response" ∧
    (runSearchOrganizations ⟨"key", 10⟩ {} (HttpOutcome.postError "connection refused")).result
        = OpResult.crash "UnboundLocalError: cannot access local variable response" ∧
    (runEnrichPeople ⟨"key", 10⟩ [] (HttpOutcome.postError "connection refused")).result
        = OpResult.crash "UnboundLocalError: cannot access local variable response" ∧
    (runSearchPeople ⟨"key", 10⟩ {} (HttpOutcome.response 500 "oops" none)).result
        = OpResult.errorArtifact "Request failed: 500 Error: oops" ∧
    (runSearchPeople ⟨"key", 10⟩ {} (HttpOutcome.response 200 "not json" none)).result
        = OpResult.errorArtifact "Failed to decode JSON from response" :=
  ⟨rfl, rfl, rfl, rfl, rfl⟩

/-- Claim C7: the domains list is serialized into a single
newline-joined string in the payload, not a list. -/
theorem domains_joined_with_newlines :
    lookupKey (buildPeoplePayload { q_organization_domains := some ["a.com", "b.com"] })
        "q_organization_domains" = some (PVal.strS "a.com\nb.com") ∧
    ∀ xs : List String, PVal.strS "a.com\nb.com" ≠ PVal.listS xs :=
  ⟨rfl, fun _ h => PVal.noConfusion h⟩

/-- Claim C8: every `search_people` payload fixes `page = 1`,
`per_page = 10` and the verified-email filter, whatever the criteria. -/
theorem fixed_pagination_and_email_filter (p : PeopleParams) :
    lookupKey (buildPeoplePayload p) "page" = some (.numS 1) ∧
    lookupKey (buildPeoplePayload p) "per_page" = some (.numS 10) ∧
    lookupKey (buildPeoplePayload p) "contact_email_status" = some (.listS ["verified"]) := by
  refine ⟨?_, ?_, ?_⟩ <;>
    (simp only [buildPeoplePayload, List.append_assoc]
     rw [lookupKey_optField_append _ _ _ (by decide), lookupKey_optField_append _ _ _ (by decide),
       lookupKey_optField_append _ _ _ (by decide), lookupKey_optField_append _ _ _ (by decide),
       lookupKey_optField_append _ _ _ (by decide), lookupKey_optField_append _ _ _ (by decide)]
     rfl)

/-- Claim C10: each operation is a deterministic function of the client
configuration, the parameters and the HTTP outcome, and none of them
mutates the client's `api_key` or `timeout`. -/
theorem ops_deterministic_preserve_config :
    ∀ (c c' : Client) (pp pp' : PeopleParams) (po po' : OrgParams)
      (ed ed' : List (List (String × String))) (o o' : HttpOutcome),
      (runSearchPeople c pp o).finalClient = c ∧
      (runSearchOrganizations c po o).finalClient = c ∧
      (runEnrichPeople c ed o).finalClient = c ∧
      (c = c' → pp = pp' → o = o' → runSearchPeople c pp o = runSearchPeople c' pp' o') ∧
      (c = c' → po = po' → o = o' → runSearchOrganizations c po o = runSearchOrganizations c' po' o') ∧
      (c = c' → ed = ed' → o = o' → runEnrichPeople c ed o = runEnrichPeople c' ed' o') := by
  intro c c' pp pp' po po' ed ed' o o'
  refine ⟨rfl, rfl, ?_, ?_, ?_, ?_⟩
  · cases h : enrichPrepare ed <;> simp [runEnrichPeople, h]
  · rintro rfl rfl rfl; rfl
  · rintro rfl rfl rfl; rfl
  · rintro rfl rfl rfl; rfl

/-- Witness for C10 at concrete inputs. -/
theorem ops_deterministic_preserve_config_witness :
    (runSearchPeople ⟨"key", 10⟩ {} (HttpOutcome.postError "x")).finalClient = ⟨"key", 10⟩ ∧
    runSearchPeople ⟨"key", 10⟩ {} (HttpOutcome.postError "x")
        = runSearchPeople ⟨"key", 10⟩ {} (HttpOutcome.postError "x") ∧
    runEnrichPeople ⟨"key", 10⟩ [] (HttpOutcome.postError "x")
        = runEnrichPeople ⟨"key", 10⟩ [] (HttpOutcome.postError "x") := by
  obtain ⟨h1, -, -, h4, -, h6⟩ := ops_deterministic_preserve_config ⟨"key", 10⟩ ⟨"key", 10⟩
    {} {} {} {} [] [] (HttpOutcome.postError "x") (HttpOutcome.postError "x")
  exact ⟨h1, h4 rfl rfl rfl, h6 rfl rfl rfl⟩

lemma lookupS_cleanPerson_blank {p : List (String × String)} {k : String}
    (h : ∀ kv ∈ p, kv.1 = k → isNonBlank kv.2 = false) :
    lookupS (cleanPerson p) k = none := by
  induction p with
  | nil => rfl
  | cons kv rest ih =>
      have hrest : lookupS (cleanPerson rest) k = none :=
        ih fun kv' hm hk => h kv' (List.mem_cons_of_mem _ hm) hk
      cases hb : isNonBlank kv.2 with
      | false => simpa [cleanPerson, List.filter_cons, hb] using hrest
      | true =>
          by_cases hk : kv.1 = k
          · exact absurd (h kv (List.mem_cons_self _ _) hk) (by simp [hb])
          · simpa [cleanPerson, List.filter_cons, hb, lookupS, hk] using hrest

lemma hasIdentifier_false_of_blank {p : List (String × String)}
    (h : ∀ kv ∈ p, (kv.1 = "email" ∨ kv.1 = "linkedin_url") → isNonBlank kv.2 = false) :
    hasIdentifier (cleanPerson p) = false := by
  have he : lookupS (cleanPerson p) "email" = none :=
    lookupS_cleanPerson_blank fun kv hm hk => h kv hm (Or.inl hk)
  have hl : lookupS (cleanPerson p) "linkedin_url" = none :=
    lookupS_cleanPerson_blank fun kv hm hk => h kv hm (Or.inr hk)
  simp [hasIdentifier, he, hl]

lemma enrichPrepare_error_of_bad {details : List (List (String × String))}
    {p : List (String × String)} (hp : p ∈ details)
    (hbad : hasIdentifier (cleanPerson p) = false) :
    enrichPrepare details = .error VALIDATION_MSG := by
  induction details with
  | nil => cases hp
  | cons q rest ih =>
      cases hq : hasIdentifier (cleanPerson q) with
      | false => simp [enrichPrepare, hq]
      | true =>
          rcases List.mem_cons.mp hp with rfl | hm
          · rw [hq] at hbad; cases hbad
          · simp [enrichPrepare, hq, ih hm]

/-- Claim C4: for every list of enrichment targets, a member target all
of whose email/linkedin_url bindings are blank makes `enrich_people`
return the validation error without issuing any network request; in
particular the empty target (no email, no URL) is rejected before any
request is sent. -/
theorem enrich_rejects_target_without_identifier :
    ∀ (c : Client) (details : List (List (String × String))) (o : HttpOutcome)
      (p : List (String × String)),
      details ≠ [] → p ∈ details →
      (∀ kv ∈ p, (kv.1 = "email" ∨ kv.1 = "linkedin_url") → isNonBlank kv.2 = false) →
      (runEnrichPeople c details o).request = none ∧
      (runEnrichPeople c details o).result = .errorArtifact VALIDATION_MSG := by
  intro c details o p _hne hp hblank
  have herr := enrichPrepare_error_of_bad hp (hasIdentifier_false_of_blank hblank)
  simp [runEnrichPeople, herr]

/-- Witness for C4: the empty target `\x7b\x7d` in a one-element list is
rejected with the validation error and no request. -/
theorem enrich_rejects_target_without_identifier_witness :
    ([[]] : List (List (String × String))) ≠ [] ∧
    ([] : List (String × String)) ∈ [([] : List (String × String))] ∧
    (runEnrichPeople ⟨"key", 10⟩ [[]] (HttpOutcome.postError "x")).request = none ∧
    (runEnrichPeople ⟨"key", 10⟩ [[]] (HttpOutcome.postError "x")).result
        = .errorArtifact VALIDATION_MSG := by
  have h := enrich_rejects_target_without_identifier ⟨"key", 10⟩ [[]]
    (HttpOutcome.postError "x") [] (by simp) (by simp) (by simp)
  exact ⟨by simp, by simp, h.1, h.2⟩

/-- Claim C5: a filter field that is absent (`none`) or bound to an empty
list never appears as a key of the outgoing payload, for all six
`search_people` fields and all four `search_organizations` fields. -/
theorem omitted_filter_fields_not_sent :
    ∀ (pp : PeopleParams) (po : OrgParams),
      ((pp.person_titles = none ∨ pp.person_titles = some []) →
          "person_titles" ∉ (buildPeoplePayload pp).map Prod.fst) ∧
      ((pp.person_locations = none ∨ pp.person_locations = some []) →
          "person_locations" ∉ (buildPeoplePayload pp).map Prod.fst) ∧
      ((pp.organization_locations = none ∨ pp.organization_locations = some []) →
          "organization_locations" ∉ (buildPeoplePayload pp).map Prod.fst) ∧
      ((pp.organization_num_employees_ranges = none ∨
            pp.organization_num_employees_ranges = some []) →
          "organization_num_employees_ranges" ∉ (buildPeoplePayload pp).map Prod.fst) ∧
      ((pp.q_organization_keyword_tags = none ∨ pp.q_organization_keyword_tags = some []) →
          "q_organization_keyword_tags" ∉ (buildPeoplePayload pp).map Prod.fst) ∧
      ((pp.q_organization_domains = none ∨ pp.q_organization_domains = some []) →
          "q_organization_domains" ∉ (buildPeoplePayload pp).map Prod.fst) ∧
      ((po.organization_num_employees_ranges = none ∨
            po.organization_num_employees_ranges = some []) →
          "organization_num_employees_ranges" ∉ (buildOrgPayload po).map Prod.fst) ∧
      ((po.organization_locations = none ∨ po.organization_locations = some []) →
          "organization_locations" ∉ (buildOrgPayload po).map Prod.fst) ∧
      ((po.organization_not_locations = none ∨ po.organization_not_locations = some []) →
          "organization_not_locations" ∉ (buildOrgPayload po).map Prod.fst) ∧
      ((po.q_organization_keyword_tags = none ∨ po.q_organization_keyword_tags = some []) →
          "q_organization_keyword_tags" ∉ (buildOrgPayload po).map Prod.fst) := by
  intro pp po
  refine ⟨?_, ?_, ?_, ?_, ?_, ?_, ?_, ?_, ?_, ?_⟩ <;>
    (intro hf hmem
     simp only [buildPeoplePayload, buildOrgPayload, List.map_append, List.mem_append,
       or_assoc] at hmem
     (first
       | (rcases hmem with h|h|h|h|h|h|h)
       | (rcases hmem with h|h|h|h|h)) <;>
       first
         | exact absurd (mem_keys_optField h).1 (by decide)
         | exact absurd h (by decide)
         | (obtain ⟨-, hn, hs⟩ := mem_keys_optField h
            rcases hf with hf|hf
            · exact hn hf
            · exact hs hf))

/-- Witness for C5 at concrete parameter records. -/
theorem omitted_filter_fields_not_sent_witness :
    "person_titles" ∉ (buildPeoplePayload { q_organization_domains := some [] }).map Prod.fst ∧
    "q_organization_domains"
        ∉ (buildPeoplePayload { q_organization_domains := some [] }).map Prod.fst ∧
    "organization_not_locations" ∉ (buildOrgPayload {}).map Prod.fst := by
  obtain ⟨h1, -, -, -, -, h6, -, -, h9, -⟩ :=
    omitted_filter_fields_not_sent { q_organization_domains := some [] } {}
  exact ⟨h1 (Or.inl rfl), h6 (Or.inr rfl), h9 (Or.inl rfl)⟩

/-- Claim C6: on every successful call of any of the three operations the
summary record is the first element of the returned record sequence. -/
theorem summary_record_first :
    (∀ (c : Client) (pp : PeopleParams) (o : HttpOutcome) (rs : List String),
        (runSearchPeople c pp o).result = .records rs →
        ∃ te tp pg ppv rest, rs = peoplePaginationInfo te tp pg ppv :: rest) ∧
    (∀ (c : Client) (po : OrgParams) (o : HttpOutcome) (rs : List String),
        (runSearchOrganizations c po o).result = .records rs →
        ∃ te rest, rs = orgPaginationInfo te :: rest) ∧
    (∀ (c : Client) (ed : List (List (String × String))) (o : HttpOutcome) (rs : List String),
        (runEnrichPeople c ed o).result = .records rs →
        ∃ tr ue mr cc rest, rs = enrichSummaryInfo tr ue mr cc :: rest) := by
  refine ⟨?_, ?_, ?_⟩
  · intro c pp o rs h
    obtain ⟨st, tx, j, -, hf⟩ := handleResponse_records h
    exact formatPeopleData_head hf
  · intro c po o rs h
    obtain ⟨st, tx, j, -, hf⟩ := handleResponse_records h
    exact formatOrgData_head hf
  · intro c ed o rs h
    cases hp : enrichPrepare ed with
    | error m => simp [runEnrichPeople, hp] at h
    | ok cleaned =>
        simp only [runEnrichPeople, hp] at h
        obtain ⟨st, tx, j, -, hf⟩ := handleResponse_records h
        exact formatEnrichData_head hf

/-- Witness for C6: zero-result successful responses for all three
operations, each returning exactly the summary record first. -/
theorem summary_record_first_witness :
    (runSearchPeople ⟨"key", 10⟩ {} (HttpOutcome.response 200 "" (some (JVal.obj [])))).result
        = OpResult.records
            [peoplePaginationInfo (JVal.num 0) (JVal.num 0) (JVal.num 1) (JVal.num 10)] ∧
    (∃ te tp pg ppv rest,
        [peoplePaginationInfo (JVal.num 0) (JVal.num 0) (JVal.num 1) (JVal.num 10)]
          = peoplePaginationInfo te tp pg ppv :: rest) ∧
    (runSearchOrganizations ⟨"key", 10⟩ {}
        (HttpOutcome.response 200 "" (some (JVal.obj [])))).result
        = OpResult.records [orgPaginationInfo (JVal.num 0)] ∧
    (∃ te rest, [orgPaginationInfo (JVal.num 0)] = orgPaginationInfo te :: rest) ∧
    (runEnrichPeople ⟨"key", 10⟩ [] (HttpOutcome.response 200 "" (some (JVal.obj [])))).result
        = OpResult.records
            [enrichSummaryInfo (JVal.num 0) (JVal.num 0) (JVal.num 0) (JVal.num 0)] ∧
    (∃ tr ue mr cc rest,
        [enrichSummaryInfo (JVal.num 0) (JVal.num 0) (JVal.num 0) (JVal.num 0)]
          = enrichSummaryInfo tr ue mr cc :: rest) := by
  refine ⟨rfl, ?_, rfl, ?_, rfl, ?_⟩
  · exact summary_record_first.1 ⟨"key", 10⟩ {}
      (HttpOutcome.response 200 "" (some (JVal.obj []))) _ rfl
  · exact summary_record_first.2.1 ⟨"key", 10⟩ {}
      (HttpOutcome.response 200 "" (some (JVal.obj []))) _ rfl
  · exact summary_record_first.2.2 ⟨"key", 10⟩ []
      (HttpOutcome.response 200 "" (some (JVal.obj []))) _ rfl

/-- Claim C3, counterexample: on a successful organization search whose
pagination carries total pages 7, current page 3 and page size 10, the
leading summary record renders none of them (no "Total Pages",
"Current Page" or "Results Per Page" line and not even the digits),
while `search_people`'s summary does render them. -/
theorem org_summary_lacks_pagination_fields_cex :
    (runSearchOrganizations ⟨"key", 10⟩ {}
        (HttpOutcome.response 200 "" (some (JVal.obj [("pagination",
          JVal.obj [("total_entries", JVal.num 42), ("total_pages", JVal.num 7),
                    ("page", JVal.num 3), ("per_page", JVal.num 10)])])))).result
      = OpResult.records [orgPaginationInfo (JVal.num 42)] ∧
    strContains (orgPaginationInfo (JVal.num 42)) "Total Pages" = false ∧
    strContains (orgPaginationInfo (JVal.num 42)) "Current Page" = false ∧
    strContains (orgPaginationInfo (JVal.num 42)) "Results Per Page" = false ∧
    strContains (orgPaginationInfo (JVal.num 42)) "7" = false ∧
    strContains (orgPaginationInfo (JVal.num 42)) "3" = false ∧
    strContains (peoplePaginationInfo (JVal.num 42) (JVal.num 7) (JVal.num 3) (JVal.num 10))
        "Total Pages: 7" = true := by
  refine ⟨rfl, ?_, ?_, ?_, ?_, ?_, ?_⟩ <;> decide

/-- Claim C3, amended: on every successful `search_organizations` call
the leading summary record is the organization pagination text, which
contains the total-entries count; unlike `search_people`'s summary it
consists of that single metadata line (total pages, current page and page
size are not rendered, as the counterexample shows concretely). -/
theorem org_summary_total_entries_only :
    ∀ (c : Client) (po : OrgParams) (o : HttpOutcome) (rs : List String),
      (runSearchOrganizations c po o).result = .records rs →
      ∃ te rest, rs = orgPaginationInfo te :: rest ∧
        ContainsSub (orgPaginationInfo te) ("- Total Organizations Found: " ++ pyStr te) := by
  intro c po o rs h
  obtain ⟨st, tx, j, -, hf⟩ := handleResponse_records h
  obtain ⟨te, rest, hrs⟩ := formatOrgData_head hf
  refine ⟨te, rest, hrs, "\n" ++ sp16 ++ "Pagination Information:" ++ "\n" ++ sp16,
    "\n" ++ sp16, ?_⟩
  simp only [orgPaginationInfo, fLine, ← String.append_assoc]

/-- Witness for the amended C3 at a concrete successful call. -/
theorem org_summary_total_entries_only_witness :
    (runSearchOrganizations ⟨"key", 10⟩ {}
        (HttpOutcome.response 200 "" (some (JVal.obj [])))).result
      = OpResult.records [orgPaginationInfo (JVal.num 0)] ∧
    ∃ te rest, [orgPaginationInfo (JVal.num 0)] = orgPaginationInfo te :: rest ∧
      ContainsSub (orgPaginationInfo te) ("- Total Organizations Found: " ++ pyStr te) :=
  ⟨rfl, org_summary_total_entries_only ⟨"key", 10⟩ {}
    (HttpOutcome.response 200 "" (some (JVal.obj []))) _ rfl⟩

lemma pyGet_obj {p : JVal} (h : isObj p = true) (k : String) (d : JVal) :
    pyGet p k d = some (dget p k d) := by
  cases p <;> simp_all [isObj, pyGet, dget]

lemma pyJoin_some_of_joinOK {j : JVal} (h : joinOK j = true) (sep : String) :
    ∃ s, pyJoin sep j = some s := by
  cases j with
  | str s => exact ⟨_, rfl⟩
  | obj fs => exact ⟨_, rfl⟩
  | arr xs =>
      simp only [joinOK] at h
      have hm : ∃ l, xs.mapM (fun v => match v with | JVal.str s => some s | _ => none)
          = some l := by
        induction xs with
        | nil => exact ⟨[], rfl⟩
        | cons x tail ih =>
            simp only [List.all_cons, Bool.and_eq_true] at h
            obtain ⟨hx, ht⟩ := h
            obtain ⟨l, hl⟩ := ih ht
            cases x <;> simp [isStr] at hx
            rename_i s
            exact ⟨s :: l, by
              simp only [List.mapM_cons, hl, Option.pure_def, Option.bind_eq_bind,
                Option.some_bind]⟩
      obtain ⟨l, hl⟩ := hm
      exact ⟨sep.intercalate l, by simp only [pyJoin, hl, Option.map_some']⟩
  | null => simp [joinOK] at h
  | boolv b => simp [joinOK] at h
  | num n => simp [joinOK] at h

lemma mapM_isSome {α β : Type} {f : α → Option β} :
    ∀ {xs : List α}, (∀ x ∈ xs, (f x).isSome = true) → ∃ l, xs.mapM f = some l := by
  intro xs
  induction xs with
  | nil => exact fun _ => ⟨[], rfl⟩
  | cons x tail ih =>
      intro h
      obtain ⟨y, hy⟩ := Option.isSome_iff_exists.mp (h x (List.mem_cons_self _ _))
      obtain ⟨l, hl⟩ := ih fun z hz => h z (List.mem_cons_of_mem _ hz)
      exact ⟨y :: l, by
        simp only [List.mapM_cons, hy, hl, Option.pure_def, Option.bind_eq_bind,
          Option.some_bind]⟩

lemma personLocation_isSome {p : JVal} (h : isObj p = true) :
    ∃ s, personLocation p = some s := by
  simp only [personLocation, Option.bind_eq_bind, Option.pure_def, pyGet_obj h,
    Option.some_bind]
  exact ⟨_, rfl⟩

lemma personLists_isSome {p : JVal} (h : isObj p = true)
    (hd : joinOK (dget p "departments" (.arr [])) = true)
    (hf : joinOK (dget p "functions" (.arr [])) = true) :
    ∃ x, personLists p = some x := by
  obtain ⟨ds, hds⟩ := pyJoin_some_of_joinOK hd ", "
  obtain ⟨fs, hfs⟩ := pyJoin_some_of_joinOK hf ", "
  simp only [personLists, Option.bind_eq_bind, Option.pure_def, pyGet_obj h,
    Option.some_bind, hds, hfs]
  exact ⟨_, rfl⟩

lemma personBasics_isSome {p : JVal} (h : isObj p = true) :
    ∃ x, personBasics p = some x := by
  simp only [personBasics, Option.bind_eq_bind, Option.pure_def, pyGet_obj h,
    Option.some_bind]
  exact ⟨_, rfl⟩

lemma companyInfo_isSome {o : JVal} (h : isObj o = true) :
    ∃ x, companyInfo o = some x := by
  simp only [companyInfo, Option.bind_eq_bind, Option.pure_def, pyGet_obj h,
    Option.some_bind]
  exact ⟨_, rfl⟩

lemma formatPerson_isSome {p : JVal} (h : WTPerson p = true) :
    (formatPerson p).isSome = true := by
  simp only [WTPerson, Bool.and_eq_true] at h
  obtain ⟨⟨⟨hp, ho⟩, hd⟩, hf⟩ := h
  obtain ⟨⟨n, t, hl2, es, li, sen⟩, hb⟩ := personBasics_isSome hp
  obtain ⟨l, hl⟩ := personLocation_isSome hp
  obtain ⟨⟨cn, cw, cl⟩, hci⟩ := companyInfo_isSome ho
  obtain ⟨⟨ds, fs⟩, hpl⟩ := personLists_isSome hp hd hf
  simp [formatPerson, pyGet_obj hp, hb, hl, hci, hpl]

lemma formatPeopleData_isSome {d : JVal} (h : WTPeopleResp d = true) :
    ∃ rs, formatPeopleData d = some rs := by
  simp only [WTPeopleResp, Bool.and_eq_true] at h
  obtain ⟨⟨hd, hpag⟩, hps⟩ := h
  split at hps
  · rename_i ps hpd
    rw [List.all_eq_true] at hps
    obtain ⟨recs, hrecs⟩ := mapM_isSome fun x hx => formatPerson_isSome (hps x hx)
    simp only [formatPeopleData, Option.bind_eq_bind, Option.pure_def, pyGet_obj hd,
      pyGet_obj hpag, Option.some_bind, hpd, pyLen, pyIter, hrecs]
    exact ⟨_, rfl⟩
  · cases hps

lemma orgPhone_isSome {o : JVal} (h : isObj o = true)
    (hph : (!pyTruthy (dget o "primary_phone" (.obj []))
        || isObj (dget o "primary_phone" (.obj []))) = true) :
    ∃ x, orgPhone o = some x := by
  simp only [orgPhone, Option.bind_eq_bind, pyGet_obj h, Option.some_bind]
  cases ht : pyTruthy (dget o "primary_phone" (.obj [])) with
  | false => simp [ht, pyGet_obj h]
  | true =>
      rw [ht] at hph
      simp only [Bool.not_true, Bool.false_or] at hph
      simp [ht, pyGet_obj hph]

lemma orgLinks_isSome {o : JVal} (h : isObj o = true) :
    ∃ x, orgLinks o = some x := by
  simp only [orgLinks, Option.bind_eq_bind, Option.pure_def, pyGet_obj h, Option.some_bind]
  exact ⟨_, rfl⟩

lemma orgFacts_isSome {o : JVal} (h : isObj o = true) :
    ∃ x, orgFacts o = some x := by
  simp only [orgFacts, Option.bind_eq_bind, Option.pure_def, pyGet_obj h, Option.some_bind]
  exact ⟨_, rfl⟩

lemma orgLangs_isSome {o : JVal} (h : isObj o = true)
    (hl : joinOK (dget o "languages" (.arr [])) = true) :
    ∃ s, orgLangs o = some s := by
  obtain ⟨s, hs⟩ := pyJoin_some_of_joinOK hl ", "
  simp only [orgLangs, Option.bind_eq_bind, pyGet_obj h, Option.some_bind, hs]
  exact ⟨_, rfl⟩

lemma formatOrg_isSome {o : JVal} (h : WTOrg o = true) :
    (formatOrg o).isSome = true := by
  simp only [WTOrg, Bool.and_eq_true] at h
  obtain ⟨⟨ho, hph⟩, hlang⟩ := h
  obtain ⟨pn, hpn⟩ := orgPhone_isSome ho hph
  obtain ⟨⟨n, w, li, tw, fb, bl⟩, hlinks⟩ := orgLinks_isSome ho
  obtain ⟨⟨al, fy, sy, ex, lo, pd⟩, hfacts⟩ := orgFacts_isSome ho
  obtain ⟨ls, hls⟩ := orgLangs_isSome ho hlang
  simp [formatOrg, hpn, hlinks, hfacts, hls]

lemma formatOrgData_isSome {d : JVal} (h : WTOrgResp d = true) :
    ∃ rs, formatOrgData d = some rs := by
  simp only [WTOrgResp, Bool.and_eq_true] at h
  obtain ⟨⟨hd, hpag⟩, hos⟩ := h
  split at hos
  · rename_i os hod
    rw [List.all_eq_true] at hos
    obtain ⟨recs, hrecs⟩ := mapM_isSome fun x hx => formatOrg_isSome (hos x hx)
    simp only [formatOrgData, Option.bind_eq_bind, Option.pure_def, pyGet_obj hd,
      pyGet_obj hpag, Option.some_bind, hod, pyLen, pyIter, hrecs]
    exact ⟨_, rfl⟩
  · cases hos

lemma findCurrentJob_isObj {jobs : List JVal} (h : ∀ j ∈ jobs, isObj j = true) :
    ∃ cj, findCurrentJob jobs = some cj ∧ isObj cj = true := by
  induction jobs with
  | nil => exact ⟨.obj [], rfl, rfl⟩
  | cons j tail ih =>
      have hj := h j (List.mem_cons_self _ _)
      simp only [findCurrentJob, Option.bind_eq_bind, pyGet_obj hj, Option.some_bind]
      cases ht : pyTruthy (dget j "current" .null) with
      | true => exact ⟨j, by simp [ht], hj⟩
      | false =>
          obtain ⟨cj, hcj, hobj⟩ := ih fun x hx => h x (List.mem_cons_of_mem _ hx)
          exact ⟨cj, by simp [ht, hcj], hobj⟩

lemma matchCurrentJob_isObj {p : JVal} (hp : isObj p = true)
    (heh : (match dget p "employment_history" (.arr []) with
            | JVal.arr jobs => jobs.all isObj
            | _ => false) = true) :
    ∃ cj, matchCurrentJob p = some cj ∧ isObj cj = true := by
  split at heh
  · rename_i jobs hpd
    rw [List.all_eq_true] at heh
    obtain ⟨cj, hcj, hobj⟩ := findCurrentJob_isObj heh
    refine ⟨cj, ?_, hobj⟩
    simp only [matchCurrentJob, Option.bind_eq_bind, pyGet_obj hp, Option.some_bind,
      hpd, pyIter, hcj]
  · cases heh

lemma matchBasics_isSome {p : JVal} (h : isObj p = true) :
    ∃ x, matchBasics p = some x := by
  simp only [matchBasics, Option.bind_eq_bind, Option.pure_def, pyGet_obj h, Option.some_bind]
  exact ⟨_, rfl⟩

lemma formatMatch_isSome {p : JVal} (h : WTMatch p = true) :
    (formatMatch p).isSome = true := by
  simp only [WTMatch, Bool.and_eq_true] at h
  obtain ⟨⟨⟨hp, heh⟩, hd⟩, hf⟩ := h
  obtain ⟨cj, hcj, hobj⟩ := matchCurrentJob_isObj hp heh
  obtain ⟨⟨n, e, li, t, sen, eng⟩, hb⟩ := matchBasics_isSome hp
  obtain ⟨l, hl⟩ := personLocation_isSome hp
  obtain ⟨⟨ds, fs⟩, hpl⟩ := personLists_isSome hp hd hf
  simp [formatMatch, hcj, hb, hl, hpl, pyGet_obj hobj]

lemma formatEnrichData_isSome {d : JVal} (h : WTEnrichResp d = true) :
    ∃ rs, formatEnrichData d = some rs := by
  simp only [WTEnrichResp, Bool.and_eq_true] at h
  obtain ⟨hd, hms⟩ := h
  split at hms
  · rename_i ms hmd
    rw [List.all_eq_true] at hms
    obtain ⟨recs, hrecs⟩ := mapM_isSome fun x hx => formatMatch_isSome (hms x hx)
    simp only [formatEnrichData, Option.bind_eq_bind, Option.pure_def, pyGet_obj hd,
      Option.some_bind, hmd, pyIter, hrecs]
    exact ⟨_, rfl⟩
  · cases hms

/-- Claim C9, counterexample: a well-formed JSON object whose `people`
field is present with an unexpected type (the number 0 instead of a
list) makes `search_people` crash with an uncaught `TypeError` instead
of producing a record sequence, so defaulted access alone does not make
every well-formed JSON object safe. -/
theorem wrong_typed_field_crashes_cex :
    (runSearchPeople ⟨"key", 10⟩ {}
        (HttpOutcome.response 200 "" (some (JVal.obj [("people", JVal.num 0)])))).result
      = OpResult.crash "TypeError while formatting response" ∧
    formatPeopleData (JVal.obj [("people", JVal.num 0)]) = none := ⟨rfl, rfl⟩

/-- Claim C9, amended: every field read from the decoded response is
accessed with a default, so missing keys never crash: each of the three
operations produces a successful record sequence for any JSON object
whose present fields (at the positions the code reads) have the expected
types — in particular for the empty object — while a present field of
the wrong type can still crash the operation (see the counterexample). -/
theorem defaults_never_crash_on_well_typed :
    ∀ d : JVal,
      (WTPeopleResp d = true → ∃ rs, formatPeopleData d = some rs) ∧
      (WTOrgResp d = true → ∃ rs, formatOrgData d = some rs) ∧
      (WTEnrichResp d = true → ∃ rs, formatEnrichData d = some rs) :=
  fun _ => ⟨formatPeopleData_isSome, formatOrgData_isSome, formatEnrichData_isSome⟩

/-- Witness for the amended C9 at the empty JSON object. -/
theorem defaults_never_crash_on_well_typed_witness :
    WTPeopleResp (JVal.obj []) = true ∧ WTOrgResp (JVal.obj []) = true ∧
    WTEnrichResp (JVal.obj []) = true ∧
    (∃ rs, formatPeopleData (JVal.obj []) = some rs) ∧
    (∃ rs, formatOrgData (JVal.obj []) = some rs) ∧
    (∃ rs, formatEnrichData (JVal.obj []) = some rs) := by
  obtain ⟨h1, h2, h3⟩ := defaults_never_crash_on_well_typed (JVal.obj [])
  exact ⟨rfl, rfl, rfl, h1 rfl, h2 rfl, h3 rfl⟩
